import Mathlib

/-!
Verification of the request-to-simulation orchestration pipeline of
`fastMCP_adapter.py` (tool entry point `simulate_glucose_dynamics`) as a
shallow embedding in Lean 4.

Modelling conventions:
  - Python floats are idealised as rationals (ℚ); Python ints as ℤ/ℕ.
  - Raised exceptions are modelled by `Except String`; the external
    pymgipsim engine (stages 2-4 of the adapter: folder creation, settings,
    subjects, inputs, `generate_results_main`, and the array extraction
    `states[0, glucose_state, :]`, `state_units[glucose_state]`,
    `parameters.VG[0]`, `time.as_unix`) is an abstract deterministic
    function `EngineConfig → Except String EngineOutput`.
  - The elementwise unit-conversion function
    `UnitConversion.glucose.concentration_mmolL_to_mgdL` lives inside the
    engine package, so it is passed in abstractly as `conv : ℚ → ℚ`.
  - The module-level logging calls have no effect on the returned value and
    are dropped; `json.dumps` is modelled by the concrete renderer
    `renderJson` (its exact text is not part of any claim).
-/

/-- One-decimal rounding, `round(x, 1)` in Python: round half to even
(banker's rounding) applied to `10 * x`, then divide by 10. -/
def roundHalfEven (x : ℚ) : ℤ :=
  let f := Int.floor x
  let r := x - f
  if r < 1 / 2 then f
  else if 1 / 2 < r then f + 1
  else if f % 2 = 0 then f else f + 1

/-- `round(x, 1)` from the adapter's summary and trace formatting. -/
def round1 (x : ℚ) : ℚ := (roundHalfEven (10 * x) : ℚ) / 10

/-- The CLI-style argument object built in step 1 of
`simulate_glucose_dynamics` (lines 100-137): engine defaults overridden
field by field.  Only the fields the adapter writes are modelled. -/
structure EngineConfig where
  scenario_name : String
  number_of_days : ℤ
  breakfast_carb_range : List ℚ
  running_start_time : List String
  cycling_start_time : List String
  running_duration : List ℚ
  cycling_duration : List ℚ
  running_incline : List ℚ
  running_speed : List ℚ
  cycling_power : List ℚ
  deriving DecidableEq, Repr

/-- What the adapter reads off the engine's cohort result (lines 168-192):
the glucose row `states[0, glucose_state, :]`, the unit string
`state_units[glucose_state]`, the parameter `parameters.VG[0]`, and the
per-sample time axis `model.time.as_unix` (minutes). -/
structure EngineOutput where
  time_points : List ℚ
  glucose_raw : List ℚ
  unit : String
  VG : ℚ
  deriving DecidableEq, Repr

/-- `days = max(1, int(np.ceil(duration_minutes / (24 * 60))))`, line 105. -/
def computeDays (duration_minutes : ℤ) : ℤ :=
  max 1 (Int.ceil ((duration_minutes : ℚ) / (24 * 60)))

/-- Step 1 of the adapter (lines 100-137): start from engine defaults
(scenario_name defaults to the empty string), set the number of days from
the duration, pin the breakfast carb range to the degenerate range
`[carbs, carbs]`, and force every activity list to a one-element zero-effect
placeholder.  `insulin_bolus` and `body_weight` are not written anywhere. -/
def buildArgs (carbs_grams : ℚ) (duration_minutes : ℤ) : EngineConfig :=
  { scenario_name := ""
    number_of_days := computeDays duration_minutes
    breakfast_carb_range := [carbs_grams, carbs_grams]
    running_start_time := ["00:00"]
    cycling_start_time := ["00:00"]
    running_duration := [0]
    cycling_duration := [0]
    running_incline := [0]
    running_speed := [0]
    cycling_power := [0] }

/-- Lines 183-189: if the model reports the glucose state in mmol/L,
convert `conv (g / VG)` elementwise (numpy broadcasts the division and the
conversion over the whole array); any other unit passes through unchanged. -/
def normalizeGlucose (conv : ℚ → ℚ) (unit : String) (VG : ℚ) (glucose_raw : List ℚ) : List ℚ :=
  if unit = "mmol/L" then glucose_raw.map (fun g => conv (g / VG)) else glucose_raw

/-- Lines 194-198: keep exactly the samples whose time is at most the
requested duration.  The source masks `time_points` and `glucose` by the
same boolean mask and later zips them; with equal lengths that is the same
as zipping first and filtering on the time component. -/
def truncateSeq (max_time : ℚ) (time_points glucose : List ℚ) : List (ℚ × ℚ) :=
  (time_points.zip glucose).filter (fun p => decide (p.1 ≤ max_time))

/-- `np.min` on a 1-d array: a reduction over `min`; raises on an empty
array. -/
def npMin : List ℚ → Except String ℚ
  | [] => Except.error ("zero-size array to reduction operation minimum which has no identity")
  | x :: xs => Except.ok (xs.foldl min x)

/-- `np.max` on a 1-d array: a reduction over `max`; raises on an empty
array. -/
def npMax : List ℚ → Except String ℚ
  | [] => Except.error ("zero-size array to reduction operation maximum which has no identity")
  | x :: xs => Except.ok (xs.foldl max x)

/-- `glucose[-1]`: the last element; raises IndexError on an empty array. -/
def npLast (l : List ℚ) : Except String ℚ :=
  match l.getLast? with
  | none => Except.error ("index -1 is out of bounds for axis 0 with size 0")
  | some x => Except.ok x

/-- Lines 205-209: the status ladder.  The source writes it as an
assignment followed by `if`/`elif`, which is exactly this if-then-else. -/
def classifyStatus (min_glucose max_glucose : ℚ) : String :=
  if min_glucose < 70 then "Hypoglycemia (Low)"
  else if max_glucose > 180 then "Hyperglycemia (High)"
  else "Normal"

/-- Lines 219-223: the subsampled trace.  `enumerate(zip(time_points,
glucose))`, keep index `i` when `i % 15 == 0 or i == len(glucose) - 1`,
emit `(float(t), round(float(g), 1))`. -/
def cgmTrace (pairs : List (ℚ × ℚ)) : List (ℚ × ℚ) :=
  ((pairs.enum).filter (fun ip => ip.1 % 15 == 0 || ip.1 == pairs.length - 1)).map
    (fun ip => (ip.2.1, round1 ip.2.2))

/-- The summary block of the result JSON (lines 213-218). -/
structure Summary where
  status : String
  min_glucose_mg_dl : ℚ
  max_glucose_mg_dl : ℚ
  final_glucose_mg_dl : ℚ
  deriving DecidableEq, Repr

/-- The result object serialised on success (lines 212-224). -/
structure ToolData where
  summary : Summary
  cgm_trace : List (ℚ × ℚ)
  deriving DecidableEq, Repr

/-- The body of the `try` block of `simulate_glucose_dynamics` (lines
97-226), with the engine stages collapsed into the abstract `engine` call:
build the args, run the engine, normalise units, truncate to the requested
duration, compute min/max/final (each raises on an empty array, caught at
the boundary), classify, and build the result object.  The length guard
models numpy raising when `glucose[mask]` is indexed by a mask of a
different length. -/
def simulateCore (engine : EngineConfig → Except String EngineOutput) (conv : ℚ → ℚ)
    (carbs_grams : ℚ) (duration_minutes : ℤ) : Except String ToolData :=
  match engine (buildArgs carbs_grams duration_minutes) with
  | Except.error e => Except.error e
  | Except.ok eo =>
    let glucose := normalizeGlucose conv eo.unit eo.VG eo.glucose_raw
    if eo.time_points.length = glucose.length then
      let pairs := truncateSeq (duration_minutes : ℚ) eo.time_points glucose
      let gsT := pairs.map Prod.snd
      match npMin gsT, npMax gsT, npLast gsT with
      | Except.ok mn, Except.ok mx, Except.ok lastG =>
        Except.ok
          { summary :=
              { status := classifyStatus mn mx
                min_glucose_mg_dl := round1 mn
                max_glucose_mg_dl := round1 mx
                final_glucose_mg_dl := round1 lastG }
            cgm_trace := cgmTrace pairs }
      | Except.error e, _, _ => Except.error e
      | _, Except.error e, _ => Except.error e
      | _, _, Except.error e => Except.error e
    else Except.error ("boolean index did not match indexed array")

/-- One `cgm_trace` entry as rendered by `json.dumps`. -/
def traceEntry (p : ℚ × ℚ) : String :=
  "\x7b\"time_min\": " ++ toString p.1 ++ ", \"glucose_mg_dl\": " ++ toString p.2 ++ "\x7d"

/-- `json.dumps(result_data)` modelled as a concrete injective renderer. -/
def renderJson (dt : ToolData) : String :=
  "\x7b\"summary\": \x7b\"status\": \"" ++ dt.summary.status
    ++ "\", \"min_glucose_mg_dl\": " ++ toString dt.summary.min_glucose_mg_dl
    ++ ", \"max_glucose_mg_dl\": " ++ toString dt.summary.max_glucose_mg_dl
    ++ ", \"final_glucose_mg_dl\": " ++ toString dt.summary.final_glucose_mg_dl
    ++ "\x7d, \"cgm_trace\": ["
    ++ String.intercalate (", ") (dt.cgm_trace.map traceEntry) ++ "]\x7d"

/-- The tool entry point `simulate_glucose_dynamics` (lines 69-230): the
whole body sits in one `try`; any exception is caught at the boundary and
converted to the single user-visible error string.  `insulin_bolus` and
`body_weight` appear only in the `logger.info` call, which does not affect
the returned value. -/
def simulate_glucose_dynamics (engine : EngineConfig → Except String EngineOutput)
    (conv : ℚ → ℚ) (carbs_grams : ℚ) (insulin_bolus : ℚ) (body_weight : ℚ)
    (duration_minutes : ℤ) : String :=
  match simulateCore engine conv carbs_grams duration_minutes with
  | Except.ok result_data => renderJson result_data
  | Except.error e => "Error executing simulation: " ++ e

/-- State touched by `_ensure_pymgipsim_initialized` (lines 44-65): the
process working directory and the module-level one-shot flag
`_initialized` (field `ready` here). -/
structure InitWorld where
  cwd : String
  ready : Bool
  deriving DecidableEq, Repr

/-- `_ensure_pymgipsim_initialized` (lines 44-65).  If the flag is set,
return at once.  Otherwise save `old_cwd = os.getcwd()`, `os.chdir` into
the engine directory, run the initialization import (which may raise), and
in the `finally` block `os.chdir(old_cwd)` on both paths; the flag is set
only after the `try` completes without raising.  The middle component
records the working directory in effect while the initialization import
runs (`none` when it is skipped); the last component is the call's outcome. -/
def ensure_pymgipsim (pyDir : String) (runInit : Except String Unit) (w : InitWorld) :
    InitWorld × Option String × Except String Unit :=
  if w.ready then (w, none, Except.ok ())
  else
    let old_cwd := w.cwd
    match runInit with
    | Except.ok _ => ({ cwd := old_cwd, ready := true }, some pyDir, Except.ok ())
    | Except.error e => ({ cwd := old_cwd, ready := w.ready }, some pyDir, Except.error e)

/-- Modelled from the spec: the pymgipsim generation stages are external
code absent from `src/` (only the adapter that calls them is present).
Per the spec, negative carbohydrate input makes the staged pipeline fail
rather than succeed, so an engine conforming to the spec returns an error
whenever the carbohydrate range it is handed contains a negative value. -/
def engineRejectsNegativeCarbs (engine : EngineConfig → Except String EngineOutput) : Prop :=
  ∀ a : EngineConfig, (∃ c, c ∈ a.breakfast_carb_range ∧ c < 0) →
    ∃ e, engine a = Except.error e

/-! ### Helper lemmas about the fold-based reductions -/

/-- A `min`-fold is bounded by its initial accumulator. -/
theorem foldl_min_le_init (xs : List ℚ) : ∀ a : ℚ, xs.foldl min a ≤ a := by
  induction xs with
  | nil => intro a; simp
  | cons x xs ih => intro a; exact le_trans (ih (min a x)) (min_le_left a x)

/-- A `min`-fold is bounded by every list element. -/
theorem foldl_min_le_mem (xs : List ℚ) : ∀ a g : ℚ, g ∈ xs → xs.foldl min a ≤ g := by
  induction xs with
  | nil => intro a g hg; simp at hg
  | cons x xs ih =>
    intro a g hg
    rcases List.mem_cons.mp hg with h | h
    · subst h; exact le_trans (foldl_min_le_init xs (min a g)) (min_le_right a g)
    · exact ih (min a x) g h

/-- A `min`-fold returns the accumulator or a list element. -/
theorem foldl_min_mem (xs : List ℚ) : ∀ a : ℚ, xs.foldl min a = a ∨ xs.foldl min a ∈ xs := by
  induction xs with
  | nil => intro a; left; rfl
  | cons x xs ih =>
    intro a
    have hfold : (x :: xs).foldl min a = xs.foldl min (min a x) := rfl
    rcases ih (min a x) with h | h
    · rcases min_choice a x with hm | hm
      · left; rw [hfold, h, hm]
      · right; rw [hfold, h, hm]; exact List.mem_cons_self x xs
    · right; rw [hfold]; exact List.mem_cons_of_mem x h

/-- A `max`-fold dominates its initial accumulator. -/
theorem foldl_max_ge_init (xs : List ℚ) : ∀ a : ℚ, a ≤ xs.foldl max a := by
  induction xs with
  | nil => intro a; simp
  | cons x xs ih => intro a; exact le_trans (le_max_left a x) (ih (max a x))

/-- A `max`-fold dominates every list element. -/
theorem foldl_max_ge_mem (xs : List ℚ) : ∀ a g : ℚ, g ∈ xs → g ≤ xs.foldl max a := by
  induction xs with
  | nil => intro a g hg; simp at hg
  | cons x xs ih =>
    intro a g hg
    rcases List.mem_cons.mp hg with h | h
    · subst h; exact le_trans (le_max_right a g) (foldl_max_ge_init xs (max a g))
    · exact ih (max a x) g h

/-- A `max`-fold returns the accumulator or a list element. -/
theorem foldl_max_mem (xs : List ℚ) : ∀ a : ℚ, xs.foldl max a = a ∨ xs.foldl max a ∈ xs := by
  induction xs with
  | nil => intro a; left; rfl
  | cons x xs ih =>
    intro a
    have hfold : (x :: xs).foldl max a = xs.foldl max (max a x) := rfl
    rcases ih (max a x) with h | h
    · rcases max_choice a x with hm | hm
      · left; rw [hfold, h, hm]
      · right; rw [hfold, h, hm]; exact List.mem_cons_self x xs
    · right; rw [hfold]; exact List.mem_cons_of_mem x h

/-! ### Claim theorems -/

/-- C1: if any stage of the request fails, `simulate_glucose_dynamics`
returns exactly the plain string "Error executing simulation: " followed by
the failure description.  The function is total, so no fault crosses the
tool boundary, and the failure output carries nothing of the result object:
no partial or degraded result is returned. -/
theorem claim_C1 (engine : EngineConfig → Except String EngineOutput) (conv : ℚ → ℚ)
    (carbs_grams insulin_bolus body_weight : ℚ) (duration_minutes : ℤ) (e : String)
    (h : simulateCore engine conv carbs_grams duration_minutes = Except.error e) :
    simulate_glucose_dynamics engine conv carbs_grams insulin_bolus body_weight duration_minutes
      = "Error executing simulation: " ++ e := by
  unfold simulate_glucose_dynamics
  rw [h]

theorem claim_C1_witness :
    simulate_glucose_dynamics (fun _ => Except.error ("engine failure")) id 100 0 70 180
      = "Error executing simulation: " ++ "engine failure" :=
  claim_C1 (fun _ => Except.error ("engine failure")) id 100 0 70 180 ("engine failure") rfl

/-- C2: for a non-empty glucose sequence, `np.min`/`np.max` return the
least and greatest elements, and the status ladder classifies
"Hypoglycemia (Low)" when the minimum is below 70, else
"Hyperglycemia (High)" when the maximum exceeds 180, else "Normal" — the
low branch taking precedence regardless of the maximum. -/
theorem claim_C2 (mn mx : ℚ) (gs : List ℚ)
    (hmin : npMin gs = Except.ok mn) (hmax : npMax gs = Except.ok mx) :
    (mn ∈ gs ∧ ∀ g ∈ gs, mn ≤ g) ∧
    (mx ∈ gs ∧ ∀ g ∈ gs, g ≤ mx) ∧
    (mn < 70 → classifyStatus mn mx = "Hypoglycemia (Low)") ∧
    (70 ≤ mn → 180 < mx → classifyStatus mn mx = "Hyperglycemia (High)") ∧
    (70 ≤ mn → mx ≤ 180 → classifyStatus mn mx = "Normal") := by
  cases gs with
  | nil => simp [npMin] at hmin
  | cons x xs =>
    simp only [npMin, Except.ok.injEq] at hmin
    simp only [npMax, Except.ok.injEq] at hmax
    subst hmin
    subst hmax
    refine ⟨⟨?_, ?_⟩, ⟨?_, ?_⟩, ?_, ?_, ?_⟩
    · rcases foldl_min_mem xs x with h | h
      · rw [h]; exact List.mem_cons_self x xs
      · exact List.mem_cons_of_mem x h
    · intro g hg
      rcases List.mem_cons.mp hg with h | h
      · subst h; exact foldl_min_le_init xs g
      · exact foldl_min_le_mem xs x g h
    · rcases foldl_max_mem xs x with h | h
      · rw [h]; exact List.mem_cons_self x xs
      · exact List.mem_cons_of_mem x h
    · intro g hg
      rcases List.mem_cons.mp hg with h | h
      · subst h; exact foldl_max_ge_init xs g
      · exact foldl_max_ge_mem xs x g h
    · intro h; simp [classifyStatus, h]
    · intro h1 h2
      simp [classifyStatus, not_lt.mpr h1, h2]
    · intro h1 h2
      simp [classifyStatus, not_lt.mpr h1, not_lt.mpr h2]

theorem claim_C2_witness :
    classifyStatus 65 200 = "Hypoglycemia (Low)" :=
  (claim_C2 65 200 [(65 : ℚ), 200] (by norm_num [npMin]) (by norm_num [npMax])).2.2.1
    (by norm_num)

/-- C4: the number of simulation days handed to the engine config is
`max(1, ceil(duration_minutes / 1440))`; in particular it is 1 for every
duration in [1, 1440] and 2 for every duration in (1440, 2880]. -/
theorem claim_C4 (duration_minutes : ℤ) (h : 1 ≤ duration_minutes) :
    (∀ c : ℚ, (buildArgs c duration_minutes).number_of_days
        = max 1 (Int.ceil ((duration_minutes : ℚ) / 1440))) ∧
    (duration_minutes ≤ 1440 → computeDays duration_minutes = 1) ∧
    (1440 < duration_minutes → duration_minutes ≤ 2880 → computeDays duration_minutes = 2) := by
  refine ⟨?_, ?_, ?_⟩
  · intro c
    show computeDays duration_minutes = _
    unfold computeDays
    norm_num
  · intro h2
    unfold computeDays
    have hcast : (duration_minutes : ℚ) ≤ 1440 := by exact_mod_cast h2
    have hle : Int.ceil ((duration_minutes : ℚ) / (24 * 60)) ≤ 1 := by
      rw [Int.ceil_le]
      push_cast
      rw [div_le_one (by norm_num : (0 : ℚ) < 24 * 60)]
      linarith
    exact max_eq_left hle
  · intro h2 h3
    unfold computeDays
    have hcast2 : (1440 : ℚ) < (duration_minutes : ℚ) := by exact_mod_cast h2
    have hcast3 : (duration_minutes : ℚ) ≤ 2880 := by exact_mod_cast h3
    have hgt : (1 : ℤ) < Int.ceil ((duration_minutes : ℚ) / (24 * 60)) := by
      rw [Int.lt_ceil]
      push_cast
      rw [lt_div_iff₀ (by norm_num : (0 : ℚ) < 24 * 60)]
      linarith
    have hle : Int.ceil ((duration_minutes : ℚ) / (24 * 60)) ≤ 2 := by
      rw [Int.ceil_le]
      push_cast
      rw [div_le_iff₀ (by norm_num : (0 : ℚ) < 24 * 60)]
      linarith
    omega

theorem claim_C4_witness :
    computeDays 180 = 1 ∧ computeDays 2000 = 2 :=
  ⟨(claim_C4 180 (by norm_num)).2.1 (by norm_num),
   (claim_C4 2000 (by norm_num)).2.2 (by norm_num) (by norm_num)⟩

/-- C7: when the engine reports the glucose unit as "mmol/L" the sequence
is converted elementwise by the engine conversion applied to each raw value
divided by VG; any other unit — in particular "mg/dL" — passes through
unchanged, so normalising an already-mg/dL sequence is the identity. -/
theorem claim_C7 (conv : ℚ → ℚ) (VG : ℚ) (glucose_raw : List ℚ) :
    normalizeGlucose conv ("mmol/L") VG glucose_raw
        = glucose_raw.map (fun g => conv (g / VG)) ∧
    (∀ unit : String, unit ≠ "mmol/L" → normalizeGlucose conv unit VG glucose_raw = glucose_raw) ∧
    normalizeGlucose conv ("mg/dL") VG glucose_raw = glucose_raw := by
  refine ⟨by simp [normalizeGlucose], ?_, by simp [normalizeGlucose]⟩
  intro unit hu
  simp [normalizeGlucose, hu]

theorem claim_C7_witness :
    normalizeGlucose id ("mg/dL") 1 [(100 : ℚ)] = [(100 : ℚ)] :=
  (claim_C7 id 1 [(100 : ℚ)]).2.1 ("mg/dL") (by simp)

/-- C9: the initialization guard restores the caller's working directory on
every path — including when the initialization import raises — relocates
into the engine directory exactly while the initialization import runs, and
performs no directory change at all once the one-shot flag is set; after a
failed initialization the flag remains unset. -/
theorem claim_C9 (pyDir : String) (runInit : Except String Unit) (w : InitWorld) :
    (ensure_pymgipsim pyDir runInit w).1.cwd = w.cwd ∧
    (w.ready = false → (ensure_pymgipsim pyDir runInit w).2.1 = some pyDir) ∧
    (w.ready = true → (ensure_pymgipsim pyDir runInit w).2.1 = none) ∧
    (∀ e, w.ready = false → runInit = Except.error e →
      (ensure_pymgipsim pyDir runInit w).2.2 = Except.error e ∧
      (ensure_pymgipsim pyDir runInit w).1.ready = false) := by
  cases w with
  | mk cwd ready =>
    cases ready <;> cases runInit <;> simp [ensure_pymgipsim]

theorem claim_C9_witness :
    (ensure_pymgipsim ("py_mgipsim") (Except.error ("init failed")) ⟨"/app", false⟩).2.2
        = Except.error ("init failed") ∧
    (ensure_pymgipsim ("py_mgipsim") (Except.error ("init failed")) ⟨"/app", false⟩).1.ready
        = false :=
  (claim_C9 ("py_mgipsim") (Except.error ("init failed")) ⟨"/app", false⟩).2.2.2
    ("init failed") rfl rfl

/-- C10: two calls that differ only in `insulin_bolus` and/or
`body_weight` (same carbs, same duration, same deterministic engine and
conversion) return identical outputs: neither parameter is used anywhere in
the pipeline after the logging call. -/
theorem claim_C10 (engine : EngineConfig → Except String EngineOutput) (conv : ℚ → ℚ)
    (carbs_grams insulin_bolus body_weight insulin_bolus' body_weight' : ℚ)
    (duration_minutes : ℤ) :
    simulate_glucose_dynamics engine conv carbs_grams insulin_bolus body_weight duration_minutes
      = simulate_glucose_dynamics engine conv carbs_grams insulin_bolus' body_weight'
          duration_minutes := rfl

/-- C8: with an engine that (per the spec) fails on a negative
carbohydrate range, any call with negative carbs yields the standardized
error string — not an unhandled fault and not a success result. -/
theorem claim_C8 (engine : EngineConfig → Except String EngineOutput) (conv : ℚ → ℚ)
    (hrej : engineRejectsNegativeCarbs engine)
    (carbs_grams insulin_bolus body_weight : ℚ) (duration_minutes : ℤ)
    (hneg : carbs_grams < 0) :
    ∃ e, simulate_glucose_dynamics engine conv carbs_grams insulin_bolus body_weight
        duration_minutes = "Error executing simulation: " ++ e := by
  obtain ⟨e, he⟩ := hrej (buildArgs carbs_grams duration_minutes)
    ⟨carbs_grams, by simp [buildArgs], hneg⟩
  refine ⟨e, ?_⟩
  unfold simulate_glucose_dynamics simulateCore
  rw [he]

theorem claim_C8_witness :
    ∃ e, simulate_glucose_dynamics (fun _ => Except.error ("negative carbohydrate")) id
        (-5) 0 70 180 = "Error executing simulation: " ++ e :=
  claim_C8 (fun _ => Except.error ("negative carbohydrate")) id
    (fun _ _ => ⟨"negative carbohydrate", rfl⟩) (-5) 0 70 180 (by norm_num)

/-! ### Inversion of the success path and membership helpers -/

/-- Inversion of the success path of `simulateCore`: a success means the
engine succeeded, every reduction over the truncated sequence succeeded,
and the result object is built from exactly those values. -/
theorem simulateCore_ok_elim (engine : EngineConfig → Except String EngineOutput)
    (conv : ℚ → ℚ) (carbs_grams : ℚ) (duration_minutes : ℤ) (dat : ToolData)
    (h : simulateCore engine conv carbs_grams duration_minutes = Except.ok dat) :
    ∃ eo : EngineOutput, engine (buildArgs carbs_grams duration_minutes) = Except.ok eo ∧
      ∃ mn mx lastG : ℚ,
        npMin ((truncateSeq (duration_minutes : ℚ) eo.time_points
            (normalizeGlucose conv eo.unit eo.VG eo.glucose_raw)).map Prod.snd)
          = Except.ok mn ∧
        npMax ((truncateSeq (duration_minutes : ℚ) eo.time_points
            (normalizeGlucose conv eo.unit eo.VG eo.glucose_raw)).map Prod.snd)
          = Except.ok mx ∧
        npLast ((truncateSeq (duration_minutes : ℚ) eo.time_points
            (normalizeGlucose conv eo.unit eo.VG eo.glucose_raw)).map Prod.snd)
          = Except.ok lastG ∧
        dat = { summary :=
                  { status := classifyStatus mn mx
                    min_glucose_mg_dl := round1 mn
                    max_glucose_mg_dl := round1 mx
                    final_glucose_mg_dl := round1 lastG }
                cgm_trace := cgmTrace (truncateSeq (duration_minutes : ℚ) eo.time_points
                  (normalizeGlucose conv eo.unit eo.VG eo.glucose_raw)) } := by
  unfold simulateCore at h
  split at h
  · exact absurd h (by simp)
  next eo heq =>
    refine ⟨eo, heq, ?_⟩
    dsimp only at h
    split at h
    · split at h
      next mn mx lastG hmin hmax hlast =>
        refine ⟨mn, mx, lastG, hmin, hmax, hlast, ?_⟩
        injection h with h2
        exact h2.symm
      next e h1 h2 h3 => exact absurd h (by simp)
      next e h1 h2 h3 => exact absurd h (by simp)
      next e h1 h2 h3 => exact absurd h (by simp)
    · exact absurd h (by simp)

/-- Every entry of the truncated sequence has time at most the cutoff. -/
theorem time_le_of_mem_truncateSeq (max_time : ℚ) (ts gs : List ℚ) (q : ℚ × ℚ)
    (hq : q ∈ truncateSeq max_time ts gs) : q.1 ≤ max_time := by
  unfold truncateSeq at hq
  exact of_decide_eq_true (List.mem_filter.mp hq).2

/-- Every trace entry takes its time from some entry of the underlying
sequence (the glucose component is rounded, the time is not). -/
theorem exists_time_of_mem_cgmTrace (pairs : List (ℚ × ℚ)) (p : ℚ × ℚ)
    (hp : p ∈ cgmTrace pairs) : ∃ q ∈ pairs, p.1 = q.1 := by
  unfold cgmTrace at hp
  rcases List.mem_map.mp hp with ⟨ip, hip, hfe⟩
  have hmem : ip ∈ pairs.enum := (List.mem_filter.mp hip).1
  refine ⟨ip.2, List.snd_mem_of_mem_enum hmem, ?_⟩
  rw [← hfe]

/-- C5: on every successful request the output trace contains only samples
whose time is at most the requested `duration_minutes` — the sequence is
truncated before the trace is computed. -/
theorem claim_C5 (engine : EngineConfig → Except String EngineOutput) (conv : ℚ → ℚ)
    (carbs_grams : ℚ) (duration_minutes : ℤ) (dat : ToolData)
    (h : simulateCore engine conv carbs_grams duration_minutes = Except.ok dat)
    (p : ℚ × ℚ) (hp : p ∈ dat.cgm_trace) : p.1 ≤ (duration_minutes : ℚ) := by
  obtain ⟨eo, heq, mn, mx, lastG, hmin, hmax, hlast, hdat⟩ :=
    simulateCore_ok_elim engine conv carbs_grams duration_minutes dat h
  subst hdat
  obtain ⟨q, hq, hpq⟩ := exists_time_of_mem_cgmTrace _ p hp
  rw [hpq]
  exact time_le_of_mem_truncateSeq _ _ _ q hq

theorem claim_C5_witness :
    (((0 : ℚ), (100 : ℚ))).1 ≤ (((7 : ℤ) : ℚ)) :=
  claim_C5 (fun _ => Except.ok ⟨[0, 5, 10], [100, 80, 90], "mg/dL", 1⟩) id 100 7
    ⟨⟨"Normal", 80, 100, 80⟩, [(0, 100), (5, 80)]⟩
    (by norm_num [simulateCore, normalizeGlucose, truncateSeq, npMin, npMax, npLast,
      classifyStatus, cgmTrace, List.enum, List.enumFrom, List.filter, List.zip,
      List.zipWith, round1, roundHalfEven])
    ((0 : ℚ), (100 : ℚ)) (by norm_num)

/-- C6: on every successful request the summary's min, max and final
glucose are the reductions over the FULL truncated sequence (every sample
with time at most the duration), not over the subsampled trace, and the
final value is the last element of that full truncated sequence. -/
theorem claim_C6 (engine : EngineConfig → Except String EngineOutput) (conv : ℚ → ℚ)
    (carbs_grams : ℚ) (duration_minutes : ℤ) (dat : ToolData) (eo : EngineOutput)
    (heng : engine (buildArgs carbs_grams duration_minutes) = Except.ok eo)
    (h : simulateCore engine conv carbs_grams duration_minutes = Except.ok dat) :
    ∃ mn mx lastG : ℚ,
      npMin ((truncateSeq (duration_minutes : ℚ) eo.time_points
          (normalizeGlucose conv eo.unit eo.VG eo.glucose_raw)).map Prod.snd)
        = Except.ok mn ∧
      npMax ((truncateSeq (duration_minutes : ℚ) eo.time_points
          (normalizeGlucose conv eo.unit eo.VG eo.glucose_raw)).map Prod.snd)
        = Except.ok mx ∧
      npLast ((truncateSeq (duration_minutes : ℚ) eo.time_points
          (normalizeGlucose conv eo.unit eo.VG eo.glucose_raw)).map Prod.snd)
        = Except.ok lastG ∧
      ((truncateSeq (duration_minutes : ℚ) eo.time_points
          (normalizeGlucose conv eo.unit eo.VG eo.glucose_raw)).map Prod.snd).getLast?
        = some lastG ∧
      dat.summary.min_glucose_mg_dl = round1 mn ∧
      dat.summary.max_glucose_mg_dl = round1 mx ∧
      dat.summary.final_glucose_mg_dl = round1 lastG ∧
      dat.summary.status = classifyStatus mn mx ∧
      dat.cgm_trace = cgmTrace (truncateSeq (duration_minutes : ℚ) eo.time_points
        (normalizeGlucose conv eo.unit eo.VG eo.glucose_raw)) := by
  obtain ⟨eo2, heq, mn, mx, lastG, hmin, hmax, hlast, hdat⟩ :=
    simulateCore_ok_elim engine conv carbs_grams duration_minutes dat h
  rw [heng] at heq
  injection heq with heo
  subst heo
  refine ⟨mn, mx, lastG, hmin, hmax, hlast, ?_, ?_⟩
  · unfold npLast at hlast
    split at hlast
    · exact absurd hlast (by simp)
    next x hx =>
      injection hlast with hxl
      rw [hx, hxl]
  · subst hdat
    exact ⟨rfl, rfl, rfl, rfl, rfl⟩

theorem claim_C6_witness :
    ∃ mn mx lastG : ℚ,
      npMin ((truncateSeq ((7 : ℤ) : ℚ)
          (EngineOutput.mk [0, 5, 10] [100, 80, 90] "mg/dL" 1).time_points
          (normalizeGlucose id (EngineOutput.mk [0, 5, 10] [100, 80, 90] "mg/dL" 1).unit
            (EngineOutput.mk [0, 5, 10] [100, 80, 90] "mg/dL" 1).VG
            (EngineOutput.mk [0, 5, 10] [100, 80, 90] "mg/dL" 1).glucose_raw)).map Prod.snd)
        = Except.ok mn ∧
      npMax ((truncateSeq ((7 : ℤ) : ℚ)
          (EngineOutput.mk [0, 5, 10] [100, 80, 90] "mg/dL" 1).time_points
          (normalizeGlucose id (EngineOutput.mk [0, 5, 10] [100, 80, 90] "mg/dL" 1).unit
            (EngineOutput.mk [0, 5, 10] [100, 80, 90] "mg/dL" 1).VG
            (EngineOutput.mk [0, 5, 10] [100, 80, 90] "mg/dL" 1).glucose_raw)).map Prod.snd)
        = Except.ok mx ∧
      npLast ((truncateSeq ((7 : ℤ) : ℚ)
          (EngineOutput.mk [0, 5, 10] [100, 80, 90] "mg/dL" 1).time_points
          (normalizeGlucose id (EngineOutput.mk [0, 5, 10] [100, 80, 90] "mg/dL" 1).unit
            (EngineOutput.mk [0, 5, 10] [100, 80, 90] "mg/dL" 1).VG
            (EngineOutput.mk [0, 5, 10] [100, 80, 90] "mg/dL" 1).glucose_raw)).map Prod.snd)
        = Except.ok lastG ∧
      ((truncateSeq ((7 : ℤ) : ℚ)
          (EngineOutput.mk [0, 5, 10] [100, 80, 90] "mg/dL" 1).time_points
          (normalizeGlucose id (EngineOutput.mk [0, 5, 10] [100, 80, 90] "mg/dL" 1).unit
            (EngineOutput.mk [0, 5, 10] [100, 80, 90] "mg/dL" 1).VG
            (EngineOutput.mk [0, 5, 10] [100, 80, 90] "mg/dL" 1).glucose_raw)).map
          Prod.snd).getLast? = some lastG ∧
      (ToolData.mk ⟨"Normal", 80, 100, 80⟩ [(0, 100), (5, 80)]).summary.min_glucose_mg_dl
        = round1 mn ∧
      (ToolData.mk ⟨"Normal", 80, 100, 80⟩ [(0, 100), (5, 80)]).summary.max_glucose_mg_dl
        = round1 mx ∧
      (ToolData.mk ⟨"Normal", 80, 100, 80⟩ [(0, 100), (5, 80)]).summary.final_glucose_mg_dl
        = round1 lastG ∧
      (ToolData.mk ⟨"Normal", 80, 100, 80⟩ [(0, 100), (5, 80)]).summary.status
        = classifyStatus mn mx ∧
      (ToolData.mk ⟨"Normal", 80, 100, 80⟩ [(0, 100), (5, 80)]).cgm_trace
        = cgmTrace (truncateSeq ((7 : ℤ) : ℚ)
            (EngineOutput.mk [0, 5, 10] [100, 80, 90] "mg/dL" 1).time_points
            (normalizeGlucose id (EngineOutput.mk [0, 5, 10] [100, 80, 90] "mg/dL" 1).unit
              (EngineOutput.mk [0, 5, 10] [100, 80, 90] "mg/dL" 1).VG
              (EngineOutput.mk [0, 5, 10] [100, 80, 90] "mg/dL" 1).glucose_raw)) :=
  claim_C6 (fun _ => Except.ok (EngineOutput.mk [0, 5, 10] [100, 80, 90] "mg/dL" 1)) id 100 7
    (ToolData.mk ⟨"Normal", 80, 100, 80⟩ [(0, 100), (5, 80)])
    (EngineOutput.mk [0, 5, 10] [100, 80, 90] "mg/dL" 1) rfl
    (by norm_num [simulateCore, normalizeGlucose, truncateSeq, npMin, npMax, npLast,
      classifyStatus, cgmTrace, List.enum, List.enumFrom, List.filter, List.zip,
      List.zipWith, round1, roundHalfEven])

/-- A filtered-and-projected enumeration equals the same filter over the
index range with positional lookups: the generic fact behind the subsample
index characterization. -/
theorem enumFrom_filter_map_getD (P : ℕ → Bool) (f : ℚ × ℚ → ℚ × ℚ) :
    ∀ (l : List (ℚ × ℚ)) (n : ℕ),
      ((List.enumFrom n l).filter (fun ip => P ip.1)).map (fun ip => f ip.2)
        = ((List.range' n l.length).filter P).map (fun i => f (l.getD (i - n) (0, 0))) := by
  intro l
  induction l with
  | nil => intro n; simp
  | cons x xs ih =>
    intro n
    have hr : List.range' n (x :: xs).length = n :: List.range' (n + 1) xs.length := by
      simp [List.range']
    have htail : ∀ i ∈ (List.range' (n + 1) xs.length).filter P,
        f ((x :: xs).getD (i - n) (0, 0)) = f (xs.getD (i - (n + 1)) (0, 0)) := by
      intro i hi
      have hmem := List.mem_of_mem_filter hi
      have hge : n + 1 ≤ i := (List.mem_range'_1.mp hmem).1
      obtain ⟨k, hk⟩ : ∃ k, i - n = k + 1 := ⟨i - n - 1, by omega⟩
      rw [hk, List.getD_cons_succ]
      have : k = i - (n + 1) := by omega
      rw [this]
    rw [List.enumFrom_cons, hr]
    by_cases hP : P n
    · rw [List.filter_cons_of_pos (by simpa using hP), List.filter_cons_of_pos hP,
        List.map_cons, List.map_cons]
      have hhead : f ((x :: xs).getD (n - n) (0, 0)) = f x := by
        rw [Nat.sub_self, List.getD_cons_zero]
      rw [hhead, ih (n + 1), List.map_congr_left htail]
    · rw [List.filter_cons_of_neg (by simpa using hP), List.filter_cons_of_neg hP,
        ih (n + 1), List.map_congr_left htail]

/-- C3: the subsampled trace consists of exactly the entries at indices
that are multiples of 15 together with the final index L-1, in original
(hence, for time-sorted input, ascending-time) order, with each index
contributing one entry (no duplicate when L-1 is itself a multiple of 15)
and each glucose value rounded to one decimal place. -/
theorem claim_C3 (pairs : List (ℚ × ℚ)) :
    (cgmTrace pairs = ((List.range pairs.length).filter
        (fun i => i % 15 == 0 || i == pairs.length - 1)).map
        (fun i => ((pairs.getD i (0, 0)).1, round1 (pairs.getD i (0, 0)).2))) ∧
    ((cgmTrace pairs).length
        = ((List.range pairs.length).filter
            (fun i => i % 15 == 0 || i == pairs.length - 1)).length) ∧
    (List.Pairwise (fun a b : ℚ => a ≤ b) (pairs.map Prod.fst) →
      List.Pairwise (fun a b : ℚ => a ≤ b) ((cgmTrace pairs).map Prod.fst)) := by
  have hmain : cgmTrace pairs = ((List.range pairs.length).filter
      (fun i => i % 15 == 0 || i == pairs.length - 1)).map
      (fun i => ((pairs.getD i (0, 0)).1, round1 (pairs.getD i (0, 0)).2)) := by
    have h := enumFrom_filter_map_getD (fun i => i % 15 == 0 || i == pairs.length - 1)
      (fun q => (q.1, round1 q.2)) pairs 0
    simpa [cgmTrace, List.enum, List.range_eq_range'] using h
  refine ⟨hmain, ?_, ?_⟩
  · rw [hmain, List.length_map]
  · intro hsorted
    have h1 : List.Pairwise (fun a b : ℚ × ℚ => a.1 ≤ b.1) pairs :=
      List.pairwise_map.mp hsorted
    have henum : List.Pairwise (fun p q : ℕ × (ℚ × ℚ) => p.2.1 ≤ q.2.1) pairs.enum := by
      have h2 : List.Pairwise (fun a b : ℚ × ℚ => a.1 ≤ b.1) (pairs.enum.map Prod.snd) := by
        rw [List.enum_map_snd]
        exact h1
      have h3 := List.pairwise_map.mp h2
      exact h3
    have hfilt := henum.filter (fun ip => ip.1 % 15 == 0 || ip.1 == pairs.length - 1)
    unfold cgmTrace
    rw [List.map_map]
    exact List.pairwise_map.mpr hfilt

theorem claim_C3_witness :
    List.Pairwise (fun a b : ℚ => a ≤ b)
      ((cgmTrace [((0 : ℚ), (100 : ℚ)), (1, 65)]).map Prod.fst) :=
  (claim_C3 [((0 : ℚ), (100 : ℚ)), (1, 65)]).2.2
    (by norm_num [List.pairwise_cons])
